import Mathlib

/-!
Verification of the slide-deck narration pipeline (`main.py`).

The definitions below are a shallow embedding of the Python source:
pure helpers become Lean functions, filesystem and subprocess effects are
made explicit as data (paths written, command argument lists, exit codes),
and exceptions become `Except` values.
-/

namespace SpeechWithSlide

/-! ## Python string trimming (`str.strip`)

`str.strip()` with no argument removes leading and trailing whitespace.
We model it on the character list of the string. -/

/-- Whitespace test used by the trimming model. -/
def isSpaceChar (c : Char) : Bool := c.isWhitespace

/-- Drop leading whitespace characters. -/
def trimLeftChars (l : List Char) : List Char := l.dropWhile isSpaceChar

/-- Drop trailing whitespace characters. -/
def trimRightChars (l : List Char) : List Char :=
  (l.reverse.dropWhile isSpaceChar).reverse

/-- Model of Python `s.strip()`: remove leading and trailing whitespace. -/
def pyStrip (s : String) : String :=
  String.mk (trimRightChars (trimLeftChars s.data))

/-- Split a character list on a separator character. -/
def splitListOn (sep : Char) (l : List Char) : List (List Char) :=
  match l with
  | [] => [[]]
  | c :: rest =>
    let r := splitListOn sep rest
    if c = sep then [] :: r
    else
      match r with
      | [] => [[c]]
      | x :: xs => (c :: x) :: xs

/-! ## Narration decision policy (`get_script_for_slide`)

Source: `if speaker_note is not None and speaker_note.strip(): return
speaker_note.strip()` else `return None`.  A non-empty string is truthy in
Python, so the condition is exactly "the trimmed note is non-empty". -/

/-- Model of `get_script_for_slide`. -/
def getScriptForSlide (speakerNote : Option String) : Option String :=
  match speakerNote with
  | some s => if pyStrip s ≠ "" then some (pyStrip s) else none
  | none => none

/-! ## Output-tree naming conventions

Source: the constructor builds `output/<project>/{txt,wav,mp4}` and the
per-slide file names use Python's `f"slide_{i:03d}_..."` formatting. -/

/-- Python `f"{i:03d}"` for a natural number: decimal digits left-padded
with zeros to a minimum width of 3. -/
def fmt3 (i : Nat) : String :=
  let s := toString i
  String.mk (List.replicate (3 - s.length) '0' ++ s.data)

/-- Directory `output/<project>`. -/
def baseOutputDir (project : String) : String := "output/" ++ project

/-- Path of the per-slide script text file. -/
def scriptFilePath (project : String) (i : Nat) : String :=
  baseOutputDir project ++ "/txt/slide_" ++ fmt3 i ++ "_script.txt"

/-- Path of the per-slide audio file. -/
def audioFilePath (project : String) (i : Nat) : String :=
  baseOutputDir project ++ "/wav/slide_" ++ fmt3 i ++ "_audio.wav"

/-- Path of the per-slide video clip. -/
def videoFilePath (project : String) (i : Nat) : String :=
  baseOutputDir project ++ "/mp4/slide_" ++ fmt3 i ++ "_video.mp4"

/-- Path of the final concatenated video, `output/<project>/<project>.mp4`. -/
def finalVideoPath (project : String) : String :=
  baseOutputDir project ++ "/" ++ project ++ ".mp4"

/-- Path of the concatenation manifest, `output/<project>/input_list.txt`. -/
def inputListPath (project : String) : String :=
  baseOutputDir project ++ "/input_list.txt"

/-! ## Companion PDF lookup (`get_corresponding_pdf`) -/

/-- Expected companion path `slides/pdf/<base_name>.pdf`. -/
def companionPdfPath (baseName : String) : String :=
  "slides/pdf/" ++ baseName ++ ".pdf"

/-- Pipeline failure modes surfaced by the embedded functions. -/
inductive PipelineError where
  | missingCompanionFile (path : String)
deriving DecidableEq, Inhabited

/-- Model of `get_corresponding_pdf`: raises when the companion PDF does
not exist, otherwise returns its path.  The filesystem probe
`pdf_path.exists()` is the boolean input. -/
def getCorrespondingPdf (baseName : String) (pdfExists : Bool) :
    Except PipelineError String :=
  if pdfExists then Except.ok (companionPdfPath baseName)
  else Except.error (PipelineError.missingCompanionFile (companionPdfPath baseName))

/-! ## Speaker-note extraction (`extract_speaker_notes_from_pptx`) -/

/-- One slide as seen by the extractor: whether it has a notes slide, and
the text of its notes frame (`none` models an absent
`notes_text_frame`). -/
structure PptxSlide where
  hasNotesSlide : Bool
  notesText : Option String
deriving DecidableEq, Inhabited

/-- Note extraction for a single slide.  Source: the note text is stripped;
an empty or whitespace-only note becomes `None`.  The guard
`notes_text_frame and notes_text_frame.text` requires the frame to exist
and its text to be non-empty (Python truthiness). -/
def extractNoteOfSlide (s : PptxSlide) : Option String :=
  if s.hasNotesSlide then
    match s.notesText with
    | some t =>
      if t ≠ "" then
        (if pyStrip t = "" then none else some (pyStrip t))
      else none
    | none => none
  else none

/-- Model of `extract_speaker_notes_from_pptx`: one entry per slide, in
slide order. -/
def extractSpeakerNotesFromPptx (slides : List PptxSlide) : List (Option String) :=
  slides.map extractNoteOfSlide

/-! ## Narration lookup used by the driver

Source (`generate_presentation_video`):
`speaker_note = speaker_notes[i-1] if i <= len(speaker_notes) else None`. -/

/-- Narration lookup for 1-based slide index `i`. -/
def speakerNoteAt (i : Nat) (notes : List (Option String)) : Option String :=
  if i ≤ notes.length then notes.getD (i - 1) none else none

/-! ## Speech synthesis (`text_to_speech`)

The service call itself is external; what the function persists is a WAV
file whose header fields are set explicitly before writing the frames. -/

/-- A persisted WAV file with its explicit format fields. -/
structure WavFile where
  path : String
  nchannels : Nat
  sampwidth : Nat
  framerate : Nat
  frames : List Nat
deriving DecidableEq, Inhabited

/-- Model of `text_to_speech`: wraps the raw PCM bytes returned by the
synthesis service into a WAV file with 1 channel, 2 bytes per sample and a
24000 Hz frame rate. -/
def textToSpeech (audioData : List Nat) (outputPath : String) : WavFile :=
  { path := outputPath
    nchannels := 1
    sampwidth := 2
    framerate := 24000
    frames := audioData }

/-! ## Per-slide clip builder (`create_video_from_slide_and_audio`) -/

/-- Image size normalization from the builder: decrement height and width
by one when odd so both are even. -/
def normalizeDims : Nat × Nat → Nat × Nat
  | (w, h) =>
    let h2 := if h % 2 ≠ 0 then h - 1 else h
    let w2 := if w % 2 ≠ 0 then w - 1 else w
    (w2, h2)

/-- The lavfi source string used for silent slides. -/
def silentAudioSrc : String := "anullsrc=channel_layout=mono:sample_rate=48000"

/-- The ffmpeg argument list for a slide with audio. -/
def ffmpegAudioCmd (tempImagePath audioPath durationStr outputPath : String) :
    List String :=
  ["ffmpeg", "-y", "-loop", "1", "-i", tempImagePath, "-i", audioPath,
   "-c:v", "libx264", "-c:a", "aac", "-t", durationStr,
   "-pix_fmt", "yuv420p", "-r", "1", "-shortest", outputPath]

/-- The ffmpeg argument list for a silent slide. -/
def ffmpegSilentCmd (tempImagePath durationStr outputPath : String) :
    List String :=
  ["ffmpeg", "-y", "-loop", "1", "-i", tempImagePath, "-f", "lavfi",
   "-i", silentAudioSrc, "-c:v", "libx264", "-c:a", "aac", "-t", durationStr,
   "-pix_fmt", "yuv420p", "-r", "1", "-shortest", outputPath]

/-- Observable outcome of one clip-builder call. -/
structure ClipBuild where
  dims : Nat × Nat
  effDuration : ℚ
  cmd : List String
  result : Except String String
  tempImageDeleted : Bool
deriving Inhabited

/-- Model of `create_video_from_slide_and_audio`.  Inputs that the Python
function reads from the outside world are explicit: the probed audio
duration (`ffprobe` result, used only when audio is present), the temp
image path chosen by `tempfile`, the textual form of the duration argument,
and the exit code and stderr of the ffmpeg call.  The temp image is
unlinked only after a zero exit code; a non-zero exit raises first. -/
def createVideoFromSlideAndAudio (imgW imgH : Nat) (audioPath : Option String)
    (outputPath : String) (duration : ℚ) (tempImagePath : String)
    (probedDuration : ℚ) (durationStr : String) (exitCode : Nat)
    (toolStderr : String) : ClipBuild :=
  let dims := normalizeDims (imgW, imgH)
  match audioPath with
  | some ap =>
    let cmd := ffmpegAudioCmd tempImagePath ap durationStr outputPath
    if exitCode ≠ 0 then
      { dims := dims, effDuration := probedDuration, cmd := cmd
        result := Except.error toolStderr, tempImageDeleted := false }
    else
      { dims := dims, effDuration := probedDuration, cmd := cmd
        result := Except.ok outputPath, tempImageDeleted := true }
  | none =>
    let cmd := ffmpegSilentCmd tempImagePath durationStr outputPath
    if exitCode ≠ 0 then
      { dims := dims, effDuration := duration, cmd := cmd
        result := Except.error toolStderr, tempImageDeleted := false }
    else
      { dims := dims, effDuration := duration, cmd := cmd
        result := Except.ok outputPath, tempImageDeleted := true }

/-! ## Final assembly (`combine_videos`) -/

/-- The single-quote character, used to quote manifest entries. -/
def quoteChar : Char := '\x27'

/-- One manifest line: `file '<absolute path>'`.  `abs` models
`os.path.abspath`. -/
def manifestLineFor (abs : String → String) (videoPath : String) : String :=
  "file " ++ String.mk (quoteChar :: (abs videoPath).data ++ [quoteChar])

/-- The manifest contents written by `combine_videos`, one line per clip in
input order. -/
def manifestFor (abs : String → String) (videoPaths : List String) : List String :=
  videoPaths.map (manifestLineFor abs)

/-- Observable outcome of one `combine_videos` call. -/
structure CombineRun where
  manifestPath : String
  manifestWritten : List String
  result : Except String String
  manifestDeleted : Bool
deriving Inhabited

/-- Model of `combine_videos`: writes the manifest, runs ffmpeg concat
(`check=True` raises on a non-zero exit before the cleanup line), and
unlinks the manifest only after a zero exit code. -/
def combineVideos (project : String) (videoPaths : List String)
    (outputPath : String) (abs : String → String) (exitCode : Nat) : CombineRun :=
  let manifest := manifestFor abs videoPaths
  if exitCode ≠ 0 then
    { manifestPath := inputListPath project, manifestWritten := manifest
      result := Except.error "CalledProcessError", manifestDeleted := false }
  else
    { manifestPath := inputListPath project, manifestWritten := manifest
      result := Except.ok outputPath, manifestDeleted := true }

/-! ## Pipeline driver (`generate_presentation_video`) -/

/-- The per-slide work recorded by the driver loop: the 1-based index, the
script and audio files written (path and content / path and script), and
the clip-builder call arguments (audio path or `none`, the duration
argument, the output path). -/
structure SlideStep where
  idx : Nat
  scriptWrite : Option (String × String)
  audioWrite : Option (String × String)
  clipAudioPath : Option String
  clipDurationArg : ℚ
  clipOutputPath : String
deriving DecidableEq, Inhabited

/-- One iteration of the driver loop for slide `i` (1-based).  With a
script: write the script file, synthesize audio to the wav path, build the
clip with that audio (builder's default duration argument 3.0).  Without a
script: build a silent clip with explicit duration 3.0. -/
def processSlide (project : String) (notes : List (Option String)) (i : Nat) :
    SlideStep :=
  let note := speakerNoteAt i notes
  match getScriptForSlide note with
  | some script =>
    { idx := i
      scriptWrite := some (scriptFilePath project i, script)
      audioWrite := some (audioFilePath project i, script)
      clipAudioPath := some (audioFilePath project i)
      clipDurationArg := 3
      clipOutputPath := videoFilePath project i }
  | none =>
    { idx := i
      scriptWrite := none
      audioWrite := none
      clipAudioPath := none
      clipDurationArg := 3
      clipOutputPath := videoFilePath project i }

/-- The completed run: per-slide steps, the clip path list handed to
`combine_videos`, the manifest it writes, and the final video path. -/
structure PipelineRun where
  steps : List SlideStep
  videoPaths : List String
  manifest : List String
  finalPath : String
deriving DecidableEq, Inhabited

/-- Files written by one slide step, in write order. -/
def stepWrites (s : SlideStep) : List String :=
  (s.scriptWrite.map Prod.fst).toList ++ (s.audioWrite.map Prod.fst).toList
    ++ [s.clipOutputPath]

/-- Model of `generate_presentation_video`.  Stage order as in the source:
extract speaker notes (no writes), locate the companion PDF (abort here
when absent), rasterize `numPages` page images, loop over the slides, then
combine.  The second component lists every slide/final artifact written, in
order; when the companion PDF is missing the function aborts before any of
them. -/
def generatePresentationVideo (project deckBase : String)
    (slides : List PptxSlide) (pdfExists : Bool) (numPages : Nat)
    (abs : String → String) :
    Except PipelineError PipelineRun × List String :=
  let notes := extractSpeakerNotesFromPptx slides
  match getCorrespondingPdf deckBase pdfExists with
  | Except.error e => (Except.error e, [])
  | Except.ok _ =>
    let steps := (List.range numPages).map (fun k => processSlide project notes (k + 1))
    let videoPaths := steps.map (fun s => s.clipOutputPath)
    let run : PipelineRun :=
      { steps := steps
        videoPaths := videoPaths
        manifest := manifestFor abs videoPaths
        finalPath := finalVideoPath project }
    (Except.ok run, (steps.map stepWrites).flatten ++ [run.finalPath])

/-- Extract the successful run; a failed run yields the default value. -/
def okRunOf (r : Except PipelineError PipelineRun × List String) : PipelineRun :=
  match r.1 with
  | Except.ok run => run
  | Except.error _ => default

/-! ## Command-line entry point (`main`) -/

/-- Python `str.lower`, character-wise. -/
def pyLower (s : String) : String := String.mk (s.data.map Char.toLower)

/-- Base name of a path (text after the last slash). -/
def pathBasename (p : String) : String :=
  String.mk ((splitListOn '/' p.data).getLastD p.data)

/-- Extension as in `os.path.splitext`: the suffix of the base name from
its last dot, where leading dots of the base name do not start an
extension. -/
def extOf (p : String) : String :=
  let b := (pathBasename p).data
  let rest := b.drop (b.takeWhile (fun c => c = '.')).length
  if rest.contains '.' then
    String.mk ('.' :: (rest.reverse.takeWhile (fun c => c ≠ '.')).reverse)
  else ""

/-- Stem as in `pathlib.Path(...).stem`: base name without its
extension. -/
def stemOf (p : String) : String :=
  let b := (pathBasename p).data
  String.mk (b.take (b.length - (extOf p).length))

/-- What `main` does before any pipeline work: exit with a code, or
proceed into the pipeline with the derived project name. -/
inductive MainOutcome where
  | exit (code : Nat)
  | proceed (projectName : String)
deriving DecidableEq

/-- Model of the validation prefix of `main`: too few arguments, a missing
file, and a non-`.pptx` extension each exit with code 1; then
`os.getenv("GOOGLE_API_KEY")` is required to be set and non-empty (Python
truthiness) or the process exits with code 1; only then does pipeline work
start. -/
def mainEntry (argv : List String) (fileExistsAt : String → Bool)
    (env : String → Option String) : MainOutcome :=
  if argv.length < 2 then MainOutcome.exit 1
  else
    let filePath := argv.getD 1 ""
    if ¬ fileExistsAt filePath then MainOutcome.exit 1
    else if pyLower (extOf filePath) ≠ ".pptx" then MainOutcome.exit 1
    else
      match env "GOOGLE_API_KEY" with
      | none => MainOutcome.exit 1
      | some v =>
        if v = "" then MainOutcome.exit 1
        else MainOutcome.proceed (stemOf filePath)

/-! ## Auxiliary definitions used only to state claims -/

/-- Read one `key=value` chunk of a lavfi source string; the first chunk
additionally carries the filter name before the first equals sign. -/
def chunkPair (chunk : List Char) : String × String :=
  match splitListOn '=' chunk with
  | [k, v] => (String.mk k, String.mk v)
  | [_, k, v] => (String.mk k, String.mk v)
  | _ => ("", "")

/-- The option pairs of a lavfi source string such as
`name=k1=v1:k2=v2`. -/
def lavfiPairs (src : String) : List (String × String) :=
  (splitListOn ':' src.data).map chunkPair

/-- Modelled from the spec text of C3: the narration for 1-based slide
index `i` is "obtained by indexing the narration list at
`min(slide_index, len(narrations))`" (1-based indexing), with an
out-of-range position treated as no narration. -/
def specMinIndexNarration (i : Nat) (notes : List (Option String)) :
    Option String :=
  let j := min i notes.length
  if 1 ≤ j then notes.getD (j - 1) none else none

/-- An environment carrying only `GOOGLE_API_KEY` and no other variable. -/
def envOnlyGoogleKey : String → Option String :=
  fun k => if k = "GOOGLE_API_KEY" then some "test-key" else none

/-! ## Helper lemmas -/

theorem trimRightChars_eq_rdropWhile (l : List Char) :
    trimRightChars l = List.rdropWhile isSpaceChar l := rfl

theorem trimRightChars_trimRightChars (l : List Char) :
    trimRightChars (trimRightChars l) = trimRightChars l := by
  simp [trimRightChars_eq_rdropWhile, List.rdropWhile_idempotent]

theorem trimLeftChars_trimLeftChars (l : List Char) :
    trimLeftChars (trimLeftChars l) = trimLeftChars l := by
  simp [trimLeftChars, List.dropWhile_idempotent]

/-- A list that is already left-trimmed stays left-trimmed after
right-trimming: right-trimming only removes a suffix, so the head (when one
remains) is unchanged. -/
theorem trimLeftChars_trimRightChars_of_trimmed (l : List Char)
    (h : trimLeftChars l = l) :
    trimLeftChars (trimRightChars l) = trimRightChars l := by
  obtain ⟨t, ht⟩ := List.rdropWhile_prefix isSpaceChar l
  rw [← trimRightChars_eq_rdropWhile] at ht
  cases hq : trimRightChars l with
  | nil => rfl
  | cons a q =>
    rw [hq] at ht
    subst ht
    have hpa : ¬ isSpaceChar a = true := by
      unfold trimLeftChars at h
      have h2 := (List.dropWhile_eq_self_iff).mp h (by simp)
      simpa using h2
    simp [trimLeftChars, List.dropWhile_cons, hpa]

/-- Python trimming is idempotent. -/
theorem pyStrip_pyStrip (s : String) : pyStrip (pyStrip s) = pyStrip s := by
  show String.mk (trimRightChars (trimLeftChars (trimRightChars (trimLeftChars s.data))))
      = String.mk (trimRightChars (trimLeftChars s.data))
  rw [trimLeftChars_trimRightChars_of_trimmed _ (trimLeftChars_trimLeftChars s.data),
    trimRightChars_trimRightChars]

theorem processSlide_idx (project : String) (notes : List (Option String)) (i : Nat) :
    (processSlide project notes i).idx = i := by
  cases h : getScriptForSlide (speakerNoteAt i notes) <;> simp [processSlide, h]

theorem processSlide_clipOutputPath (project : String)
    (notes : List (Option String)) (i : Nat) :
    (processSlide project notes i).clipOutputPath = videoFilePath project i := by
  cases h : getScriptForSlide (speakerNoteAt i notes) <;> simp [processSlide, h]

theorem processSlide_clipDurationArg (project : String)
    (notes : List (Option String)) (i : Nat) :
    (processSlide project notes i).clipDurationArg = 3 := by
  cases h : getScriptForSlide (speakerNoteAt i notes) <;> simp [processSlide, h]

theorem processSlide_of_script (project : String) (notes : List (Option String))
    (i : Nat) (sc : String) (h : getScriptForSlide (speakerNoteAt i notes) = some sc) :
    (processSlide project notes i).clipAudioPath = some (audioFilePath project i)
    ∧ (processSlide project notes i).audioWrite = some (audioFilePath project i, sc)
    ∧ (processSlide project notes i).scriptWrite = some (scriptFilePath project i, sc) := by
  simp [processSlide, h]

theorem processSlide_of_no_script (project : String) (notes : List (Option String))
    (i : Nat) (h : getScriptForSlide (speakerNoteAt i notes) = none) :
    (processSlide project notes i).clipAudioPath = none
    ∧ (processSlide project notes i).audioWrite = none
    ∧ (processSlide project notes i).scriptWrite = none := by
  simp [processSlide, h]

theorem processSlide_clipAudioPath_isSome (project : String)
    (notes : List (Option String)) (i : Nat) :
    (processSlide project notes i).clipAudioPath.isSome
      = (getScriptForSlide (speakerNoteAt i notes)).isSome := by
  cases h : getScriptForSlide (speakerNoteAt i notes) with
  | none => simp [(processSlide_of_no_script project notes i h).1]
  | some sc => simp [(processSlide_of_script project notes i sc h).1]

theorem okRunOf_generate (project deckBase : String) (slides : List PptxSlide)
    (numPages : Nat) (abs : String → String) :
    okRunOf (generatePresentationVideo project deckBase slides true numPages abs)
      = { steps := (List.range numPages).map
            (fun k => processSlide project (extractSpeakerNotesFromPptx slides) (k + 1))
          videoPaths := ((List.range numPages).map
            (fun k => processSlide project (extractSpeakerNotesFromPptx slides) (k + 1))).map
              (fun s => s.clipOutputPath)
          manifest := manifestFor abs (((List.range numPages).map
            (fun k => processSlide project (extractSpeakerNotesFromPptx slides) (k + 1))).map
              (fun s => s.clipOutputPath))
          finalPath := finalVideoPath project } := rfl

/-! ## Claim theorems -/

/-- C2: the narration decision policy `get_script_for_slide` is a pure
function from an optional string to an optional string: a non-null input
maps to its trimmed text exactly when that trim is non-blank and to no
narration otherwise, and a null input maps to no narration; in particular
the inputs `"  "`, `""`, `None`, `"Hello"` map to `None`, `None`, `None`,
`"Hello"`. -/
theorem C2_narration_policy :
    (∀ s : String, getScriptForSlide (some s)
      = (if pyStrip s = "" then none else some (pyStrip s)))
    ∧ getScriptForSlide none = none
    ∧ getScriptForSlide (some "  ") = none
    ∧ getScriptForSlide (some "") = none
    ∧ getScriptForSlide (some "Hello") = some "Hello" := by
  refine ⟨fun s => ?_, rfl, by decide, by decide, by decide⟩
  by_cases h : pyStrip s = "" <;> simp [getScriptForSlide, h]

/-- C5: in the notes-driven pipeline, a missing companion PDF at
`slides/pdf/<deck_basename>.pdf` aborts the run with the missing-file error
before the per-slide loop, so no script, audio or clip artifact is
written. -/
theorem C5_missing_pdf_aborts (project deckBase : String)
    (slides : List PptxSlide) (numPages : Nat) (abs : String → String) :
    generatePresentationVideo project deckBase slides false numPages abs
      = (Except.error (PipelineError.missingCompanionFile (companionPdfPath deckBase)),
         []) := rfl

/-- C6: the clip builder's resized temp image and the assembler's
concatenation manifest are deleted exactly when the media-tool call exits
with code 0; a failing call raises before the cleanup line, so the
temporary file is left in place. -/
theorem C6_temp_file_cleanup :
    (∀ (imgW imgH : Nat) (audioPath : Option String) (outputPath : String)
        (dur : ℚ) (tmp : String) (probed : ℚ) (durStr : String)
        (exitCode : Nat) (errMsg : String),
      (createVideoFromSlideAndAudio imgW imgH audioPath outputPath dur tmp
          probed durStr exitCode errMsg).tempImageDeleted = (exitCode == 0)
      ∧ (createVideoFromSlideAndAudio imgW imgH audioPath outputPath dur tmp
          probed durStr exitCode errMsg).result
        = (if exitCode = 0 then Except.ok outputPath else Except.error errMsg))
    ∧ (∀ (project : String) (videoPaths : List String) (outputPath : String)
        (abs : String → String) (exitCode : Nat),
      (combineVideos project videoPaths outputPath abs exitCode).manifestDeleted
        = (exitCode == 0)
      ∧ (combineVideos project videoPaths outputPath abs exitCode).result
        = (if exitCode = 0 then Except.ok outputPath
           else Except.error "CalledProcessError")) := by
  constructor
  · intro imgW imgH audioPath outputPath dur tmp probed durStr exitCode errMsg
    cases audioPath <;> by_cases he : exitCode = 0 <;>
      simp [createVideoFromSlideAndAudio, he]
  · intro project videoPaths outputPath abs exitCode
    by_cases he : exitCode = 0 <;> simp [combineVideos, he]

/-- C7: the clip builder's image normalization decrements each odd
dimension by one and keeps each even dimension, so `(101, 200)` becomes
`(100, 200)`, `(101, 201)` becomes `(100, 200)`, `(100, 200)` is
unchanged, and the result is always even in both components; the builder
uses exactly this normalization. -/
theorem C7_image_normalization :
    normalizeDims (101, 200) = (100, 200)
    ∧ normalizeDims (101, 201) = (100, 200)
    ∧ normalizeDims (100, 200) = (100, 200)
    ∧ (∀ w h : Nat, normalizeDims (w, h)
        = ((if w % 2 = 1 then w - 1 else w), (if h % 2 = 1 then h - 1 else h))
        ∧ (normalizeDims (w, h)).1 % 2 = 0 ∧ (normalizeDims (w, h)).2 % 2 = 0)
    ∧ (∀ (imgW imgH : Nat) (audioPath : Option String) (outputPath : String)
        (dur : ℚ) (tmp : String) (probed : ℚ) (durStr : String)
        (exitCode : Nat) (errMsg : String),
        (createVideoFromSlideAndAudio imgW imgH audioPath outputPath dur tmp
          probed durStr exitCode errMsg).dims = normalizeDims (imgW, imgH)) := by
  refine ⟨by decide, by decide, by decide, fun w h => ?_, ?_⟩
  · rcases Nat.mod_two_eq_zero_or_one w with hw | hw <;>
      rcases Nat.mod_two_eq_zero_or_one h with hh | hh <;>
      refine ⟨?_, ?_, ?_⟩ <;> simp [normalizeDims, hw, hh] <;> omega
  · intro imgW imgH audioPath outputPath dur tmp probed durStr exitCode errMsg
    cases audioPath <;> by_cases he : exitCode = 0 <;>
      simp [createVideoFromSlideAndAudio, he]

/-- C8: every WAV artifact persisted by `text_to_speech` carries 1
channel, 2 bytes per sample and a 24000 Hz frame rate, while the silent
track synthesized for narration-less slides is requested from the media
tool as a mono `anullsrc` source at a 48000 Hz sample rate. -/
theorem C8_audio_formats :
    (∀ (audioData : List Nat) (outputPath : String),
      (textToSpeech audioData outputPath).nchannels = 1
      ∧ (textToSpeech audioData outputPath).sampwidth = 2
      ∧ (textToSpeech audioData outputPath).framerate = 24000)
    ∧ (∀ tmp durStr outPath : String,
        (ffmpegSilentCmd tmp durStr outPath).getD 6 "" = "-f"
        ∧ (ffmpegSilentCmd tmp durStr outPath).getD 7 "" = "lavfi"
        ∧ (ffmpegSilentCmd tmp durStr outPath).getD 8 "" = "-i"
        ∧ (ffmpegSilentCmd tmp durStr outPath).getD 9 "" = silentAudioSrc)
    ∧ lavfiPairs silentAudioSrc
        = [("channel_layout", "mono"), ("sample_rate", "48000")] := by
  exact ⟨fun a o => ⟨rfl, rfl, rfl⟩, fun t d o => ⟨rfl, rfl, rfl, rfl⟩, by decide⟩

/-- C10: every entry of the extracted speaker-note list is either `none`
or a non-empty string that is fixed by trimming, so downstream consumers
never see an empty or untrimmed narration entry. -/
theorem C10_extracted_notes_invariant :
    ∀ slides : List PptxSlide,
      ((extractSpeakerNotesFromPptx slides).all fun x =>
        match x with
        | none => true
        | some t => (t != "") && (pyStrip t == t)) = true := by
  intro slides
  rw [List.all_eq_true]
  intro x hx
  rw [extractSpeakerNotesFromPptx, List.mem_map] at hx
  obtain ⟨s, _, rfl⟩ := hx
  unfold extractNoteOfSlide
  by_cases h1 : s.hasNotesSlide
  · cases hnt : s.notesText with
    | none => simp [h1, hnt]
    | some t =>
      by_cases h2 : t = ""
      · simp [h1, hnt, h2]
      · by_cases h3 : pyStrip t = ""
        · simp [h1, hnt, h2, h3]
        · simp [h1, hnt, h2, h3, pyStrip_pyStrip]
  · simp [h1]

/-- C3 counterexample: for 2 page images and the single-entry narration
list `[some "A"]`, the claim's formula "index the narration list at
`min(slide_index, len(narrations))`" yields the narration `"A"` for slide
2, yet the driver's lookup returns no narration there and the driver
builds slide 2's clip silently. -/
theorem C3_counterexample_min_indexing :
    speakerNoteAt 2 [some "A"] = none
    ∧ specMinIndexNarration 2 [some "A"] = some "A"
    ∧ ((okRunOf (generatePresentationVideo "p" "d"
        [{ hasNotesSlide := true, notesText := some "A" }] true 2 id)).steps.map
          fun s => s.clipAudioPath)
        = [some (audioFilePath "p" 1), none] := by
  refine ⟨by decide, by decide, by decide⟩

/-- C3 amended: the narration used for 1-based slide index `i = k + 1` is
the `(i-1)`-th (0-based) entry of the narration list when `i` is in range
and no narration otherwise; in particular no index error can occur. -/
theorem C3_amended_narration_lookup (notes : List (Option String)) (k : Nat) :
    speakerNoteAt (k + 1) notes
      = (if h : k < notes.length then notes.get ⟨k, h⟩ else none) := by
  unfold speakerNoteAt
  by_cases h : k < notes.length
  · rw [dif_pos h, if_pos (by omega)]
    simp [List.getD_eq_getElem?_getD, List.getElem?_eq_getElem h]
  · rw [dif_neg h, if_neg (by omega)]

/-- C3 amended witness: concrete instances of the amended lookup theorem,
one in range and one out of range. -/
theorem C3_amended_narration_lookup_witness :
    (speakerNoteAt (0 + 1) [some "A"]
      = (if h : 0 < [some "A"].length then [some "A"].get ⟨0, h⟩ else none))
    ∧ (speakerNoteAt (1 + 1) [some "A"]
      = (if h : 1 < [some "A"].length then [some "A"].get ⟨1, h⟩ else none)) :=
  ⟨C3_amended_narration_lookup [some "A"] 0, C3_amended_narration_lookup [some "A"] 1⟩

/-- C4 counterexample: the entry point checks a single environment
variable.  With an environment carrying only `GOOGLE_API_KEY` — every
other key, in particular any separate script-generation key, is absent —
`main` does not abort but proceeds into the pipeline. -/
theorem C4_counterexample_single_key :
    envOnlyGoogleKey "ANTHROPIC_API_KEY" = none
    ∧ mainEntry ["main.py", "deck.pptx"] (fun _ => true) envOnlyGoogleKey
        = MainOutcome.proceed "deck" := ⟨by decide, by decide⟩

/-- C4 amended: for an existing `.pptx` argument, the entry point requires
exactly one secret key, `GOOGLE_API_KEY` (used for speech synthesis): when
it is unset the process exits with code 1 before any pipeline work, and
when it is set non-empty the pipeline proceeds. -/
theorem C4_amended_key_check (a0 fp : String) (fx : String → Bool)
    (env : String → Option String) (hfx : fx fp = true)
    (hext : pyLower (extOf fp) = ".pptx") :
    (env "GOOGLE_API_KEY" = none → mainEntry [a0, fp] fx env = MainOutcome.exit 1)
    ∧ (∀ v, env "GOOGLE_API_KEY" = some v → v ≠ "" →
        mainEntry [a0, fp] fx env = MainOutcome.proceed (stemOf fp)) := by
  constructor
  · intro hnone
    simp [mainEntry, hfx, hext, hnone]
  · intro v hv hne
    simp [mainEntry, hfx, hext, hv, hne]

/-- C4 amended witness: concrete instance of the amended key-check
theorem. -/
theorem C4_amended_key_check_witness :
    ((fun _ => true : String → Bool) "deck.pptx" = true)
    ∧ pyLower (extOf "deck.pptx") = ".pptx"
    ∧ mainEntry ["main.py", "deck.pptx"] (fun _ => true) (fun _ => none)
        = MainOutcome.exit 1 :=
  ⟨rfl, by decide,
    (C4_amended_key_check "main.py" "deck.pptx" (fun _ => true) (fun _ => none)
      rfl (by decide)).1 rfl⟩

/-- C9: per-slide artifacts use the 1-based slide index zero-padded to 3
digits (`slide_001_*` for index 1, `slide_042_*` for index 42) under
`output/<project>/{txt,wav,mp4}/slide_NNN_{script.txt,audio.wav,video.mp4}`,
and the final video is `output/<project>/<project>.mp4`; the driver writes
its artifacts at exactly these paths. -/
theorem C9_artifact_naming :
    fmt3 1 = "001" ∧ fmt3 42 = "042"
    ∧ (∀ (project : String) (i : Nat),
        scriptFilePath project i
          = "output/" ++ project ++ "/txt/slide_" ++ fmt3 i ++ "_script.txt"
        ∧ audioFilePath project i
          = "output/" ++ project ++ "/wav/slide_" ++ fmt3 i ++ "_audio.wav"
        ∧ videoFilePath project i
          = "output/" ++ project ++ "/mp4/slide_" ++ fmt3 i ++ "_video.mp4"
        ∧ finalVideoPath project = "output/" ++ project ++ "/" ++ project ++ ".mp4")
    ∧ (∀ (project deckBase : String) (slides : List PptxSlide) (numPages : Nat)
        (abs : String → String),
        (okRunOf (generatePresentationVideo project deckBase slides true numPages abs)).videoPaths
          = (List.range numPages).map (fun k => videoFilePath project (k + 1))
        ∧ (okRunOf (generatePresentationVideo project deckBase slides true numPages abs)).finalPath
          = finalVideoPath project
        ∧ ((okRunOf (generatePresentationVideo project deckBase slides true numPages abs)).steps.all
            fun s =>
              s.scriptWrite.all (fun w => w.1 == scriptFilePath project s.idx)
              && s.audioWrite.all (fun w => w.1 == audioFilePath project s.idx)
              && (s.clipOutputPath == videoFilePath project s.idx)) = true) := by
  refine ⟨by decide, by decide, fun project i => ⟨rfl, rfl, rfl, rfl⟩, ?_⟩
  intro project deckBase slides numPages abs
  refine ⟨?_, ?_, ?_⟩
  · rw [okRunOf_generate]
    simp [List.map_map, Function.comp, processSlide_clipOutputPath]
  · rw [okRunOf_generate]
  · rw [okRunOf_generate]
    simp only [List.all_eq_true]
    intro s hs
    rw [List.mem_map] at hs
    obtain ⟨k, hk, rfl⟩ := hs
    cases h : getScriptForSlide (speakerNoteAt (k + 1) (extractSpeakerNotesFromPptx slides)) with
    | none =>
      obtain ⟨h1, h2, h3⟩ := processSlide_of_no_script project _ (k + 1) h
      simp [h1, h2, h3, processSlide_idx, processSlide_clipOutputPath]
    | some sc =>
      obtain ⟨h1, h2, h3⟩ := processSlide_of_script project _ (k + 1) sc h
      simp [h1, h2, h3, processSlide_idx, processSlide_clipOutputPath]

/-- C1: for a deck rasterized to `numPages` page images, the driver
produces exactly `numPages` per-slide clips in ascending 1-based
slide-index order; a slide whose narration lookup is non-blank gets its
clip built with that slide's audio artifact (also written as that slide's
audio file), every other slide's clip is built with no audio and the
fallback duration argument 3.0, the number of audio-backed clips equals
the number of slide indices with non-blank narration, and the
concatenation manifest lists the clip paths in the same ascending
order. -/
theorem C1_driver_produces_ordered_clips
    (project deckBase : String) (slides : List PptxSlide) (numPages : Nat)
    (abs : String → String) :
    (okRunOf (generatePresentationVideo project deckBase slides true numPages abs)).steps.length
      = numPages
    ∧ ((okRunOf (generatePresentationVideo project deckBase slides true numPages abs)).steps.map
        fun s => s.idx) = (List.range numPages).map (fun k => k + 1)
    ∧ (okRunOf (generatePresentationVideo project deckBase slides true numPages abs)).videoPaths
        = (List.range numPages).map (fun k => videoFilePath project (k + 1))
    ∧ ((okRunOf (generatePresentationVideo project deckBase slides true numPages abs)).steps.all
        fun s =>
          match getScriptForSlide (speakerNoteAt s.idx (extractSpeakerNotesFromPptx slides)) with
          | some sc =>
              decide (s.clipAudioPath = some (audioFilePath project s.idx))
              && decide (s.audioWrite = some (audioFilePath project s.idx, sc))
          | none =>
              decide (s.clipAudioPath = none) && decide (s.clipDurationArg = 3)
              && decide (s.audioWrite = none)) = true
    ∧ ((okRunOf (generatePresentationVideo project deckBase slides true numPages abs)).steps.filter
        fun s => s.clipAudioPath.isSome).length
        = ((List.range numPages).filter fun k =>
            (getScriptForSlide (speakerNoteAt (k + 1) (extractSpeakerNotesFromPptx slides))).isSome).length
    ∧ (okRunOf (generatePresentationVideo project deckBase slides true numPages abs)).manifest
        = (List.range numPages).map
            (fun k => manifestLineFor abs (videoFilePath project (k + 1))) := by
  refine ⟨?_, ?_, ?_, ?_, ?_, ?_⟩
  · rw [okRunOf_generate]
    simp
  · rw [okRunOf_generate]
    simp [List.map_map, Function.comp, processSlide_idx]
  · rw [okRunOf_generate]
    simp [List.map_map, Function.comp, processSlide_clipOutputPath]
  · rw [okRunOf_generate]
    simp only [List.all_eq_true]
    intro s hs
    rw [List.mem_map] at hs
    obtain ⟨k, hk, rfl⟩ := hs
    rw [processSlide_idx]
    cases h : getScriptForSlide (speakerNoteAt (k + 1) (extractSpeakerNotesFromPptx slides)) with
    | none =>
      obtain ⟨h1, h2, h3⟩ := processSlide_of_no_script project _ (k + 1) h
      simp [h, h1, h2, processSlide_clipDurationArg]
    | some sc =>
      obtain ⟨h1, h2, h3⟩ := processSlide_of_script project _ (k + 1) sc h
      simp [h, h1, h2]
  · rw [okRunOf_generate]
    simp only [← List.countP_eq_length_filter, List.countP_map]
    refine List.countP_congr fun k hk => ?_
    simp [Function.comp, processSlide_clipAudioPath_isSome]
  · rw [okRunOf_generate]
    simp [manifestFor, List.map_map, Function.comp, processSlide_clipOutputPath]

end SpeechWithSlide
